import Mathlib

/-!
# Verification of mergin-db-sync (`src/dbsync.py`) against its specification

Shallow embedding of the synchronization state machine in `dbsync.py`:
the operations `pull`, `status`, `push`, `init`, the per-pair dispatcher
`dbsync_init`, the CLI dispatch of `main`, and the geodiff process wrapper
`_run_geodiff`.

Modelling choices, documented once here:

* Datasets (the `base` schema, the `modified` schema, the working-copy
  GeoPackage file, the server file) are modelled as elements of `Int`;
  a changeset between two datasets is their delta (an `Int`).  This realizes
  the spec's DiffEngine contract (§6): `diff a b = b - a`, `apply d c = d + c`,
  a changeset has zero size iff the two datasets are equal, and `rebase`
  replays our edits on top of theirs (in the delta model: add their delta).
  The geodiff binary itself is an external collaborator, not part of this
  repository; only this contract is assumed.
* External collaborator outcomes (mergin client errors, pending-change
  reports, geodiff copy faithfulness) are oracle inputs in an `Env` record:
  the Python code branches on their results, and the embedding reproduces
  exactly those branches.
* Each operation returns the final `World` (database schemas, working
  directory, server), the list of observable `Event`s it performed in order,
  and `some msg` when it raised `DbSyncError msg`.  Print statements are not
  modelled except where a claim is about them (`_run_geodiff`).
* Temporary changeset files written by `pull`/`push`/`status` are tracked by
  name in `tmpExists`; the outputs of the `as-summary` / `as-json` helpers
  (which remove their own file before and after use, lines 90-98/104-113 of
  the source) and the random-named file of `_compare_datasets` are not
  claim-relevant and are left untracked.
* Error messages keep the source's text; dynamic tails (the Python `str()`
  of a status dictionary, exception texts) are dropped.
-/

namespace DbSync

/-- Persisted metadata attached to the `base` schema
(`_set_db_project_comment` / `_get_db_project_comment`):
`{name, version, error?}`.  Versions are modelled as naturals. -/
structure SchemaComment where
  name : String
  version : Nat
  error : Option String
deriving DecidableEq, Repr

/-- One entry of the configured connection list, plus the global
`working_dir` setting (in the source it lives in the global `config`
object; it is carried here per connection for the single-pair model). -/
structure ConnConfig where
  workingDir : String
  mergin_project : String
  sync_file : String
  base : String
  modified : String
deriving DecidableEq, Repr

/-- Split a character list on `'/'` (structural implementation of Python's
`str.split("/")`, kernel-reducible so concrete runs can be evaluated). -/
def splitCharsOnSlash : List Char → List (List Char)
  | [] => [[]]
  | c :: cs =>
    if c = '/' then [] :: splitCharsOnSlash cs
    else
      match splitCharsOnSlash cs with
      | [] => [[c]]
      | h :: t => (c :: h) :: t

/-- `conn_cfg.mergin_project.split("/")[1]`. -/
def projectNameOf (cfg : ConnConfig) : String :=
  ⟨(splitCharsOnSlash cfg.mergin_project.data).getD 1 []⟩

/-- `work_dir = os.path.join(config.working_dir, project_name)`. -/
def workDirOf (cfg : ConnConfig) : String :=
  cfg.workingDir ++ "/" ++ projectNameOf cfg

/-- `gpkg_full_path = os.path.join(work_dir, conn_cfg.sync_file)`. -/
def gpkgPathOf (cfg : ConnConfig) : String :=
  workDirOf cfg ++ "/" ++ cfg.sync_file

/-- Temp changeset file written by `pull` for the `base`→`modified` diff. -/
def pullBase2ourPath (cfg : ConnConfig) : String :=
  projectNameOf cfg ++ "-dbsync-pull-base2our"

/-- Temp changeset file written by `pull` for the old-file→new-file diff. -/
def pullBase2theirPath (cfg : ConnConfig) : String :=
  projectNameOf cfg ++ "-dbsync-pull-base2their"

/-- Conflicts file produced by the rebase branch of `pull`. -/
def pullConflictsPath (cfg : ConnConfig) : String :=
  projectNameOf cfg ++ "-dbsync-pull-conflicts"

/-- Temp changeset file written by `status`. -/
def statusBase2ourPath (cfg : ConnConfig) : String :=
  projectNameOf cfg ++ "-dbsync-status-base2our"

/-- Temp changeset file written by `push`. -/
def pushBase2ourPath (cfg : ConnConfig) : String :=
  projectNameOf cfg ++ "-dbsync-push-base2our"

/-- The snapshot `gpkg_basefile + "-old"` taken by `pull`. -/
def basefileOldPath (cfg : ConnConfig) : String :=
  workDirOf cfg ++ "/.mergin/" ++ cfg.sync_file ++ "-old"

/-- Local state of one synchronized pair: the working directory, the
database schemas and the schema comment, plus the set of temp changeset
files currently existing (by name). -/
structure SyncState where
  workDirExists : Bool
  workDirHasMergin : Bool
  syncFileExists : Bool
  /-- content of the working-copy GeoPackage -/
  gpkgFile : Int
  /-- content of the `.mergin` basefile (last downloaded version) -/
  gpkgBasefile : Int
  localVersion : Nat
  baseSchemaExists : Bool
  modifiedSchemaExists : Bool
  baseSchema : Int
  modifiedSchema : Int
  comment : Option SchemaComment
  tmpExists : List String
deriving DecidableEq, Repr

/-- State of the hosted project on the server. -/
structure ServerState where
  version : Nat
  /-- content of the sync file at the current server version -/
  file : Int
  /-- whether the hosted project contains the sync file at all -/
  hasSyncFile : Bool
deriving DecidableEq, Repr

structure World where
  st : SyncState
  srv : ServerState
deriving DecidableEq, Repr

/-- Oracle for external collaborator outcomes.  The source code branches on
these results; the embedding reproduces the branches. -/
structure Env where
  /-- `mp.get_push_changes()` reports added/updated/removed files -/
  pendingLocal : Bool
  /-- `mp.get_pull_changes(...)` reports pending server-side files -/
  pendingServer : Bool
  /-- `mp.geodiff is not None` -/
  geodiffAvailable : Bool
  /-- `psycopg2.connect` succeeds -/
  dbConnectOk : Bool
  /-- `mc.get_projects_by_names` / `mc.project_info` raises `ClientError` -/
  clientErrorOnInfo : Bool
  /-- `mc.pull_project` raises `ClientError` -/
  clientErrorOnPull : Bool
  /-- `mc.push_project` raises `ClientError` -/
  clientErrorOnPush : Bool
  /-- the geodiff `copy` invocations in `init` exit with status 0 -/
  copySucceeds : Bool
  /-- corruption introduced by the first geodiff copy of `init`
  (`0` = the copy is faithful) -/
  copyErr1 : Int
  /-- corruption introduced by the second geodiff copy of `init` -/
  copyErr2 : Int
deriving DecidableEq, Repr

/-- Observable effects of an operation, in program order. -/
inductive Event where
  /-- a call into the mergin client that talks to the project server -/
  | serverContact (op : String) : Event
  /-- `geodiff apply` of a changeset (delta) to a database schema -/
  | dbApply (schema : String) (delta : Int) : Event
  /-- `geodiff rebase-db` mutating `modified`, writing a conflicts file -/
  | dbRebase (base modified : String) (delta : Int) (conflicts : String) : Event
  /-- `geodiff copy` writing into a database schema -/
  | dbCopy (dst : String) : Event
  /-- `COMMENT ON SCHEMA` on the `base` schema -/
  | setComment (c : SchemaComment) : Event
  | fileRemove (path : String) : Event
  | fileWrite (path : String) : Event
  /-- `geodiff apply` of a changeset to the working-copy GeoPackage -/
  | gpkgApply (delta : Int) : Event
  /-- `shutil.rmtree(work_dir)` -/
  | workDirRemove : Event
deriving DecidableEq, Repr

/-- Events that mutate the database (schema contents or the schema
comment). -/
def Event.isDbMutation : Event → Bool
  | .dbApply _ _ => true
  | .dbRebase _ _ _ _ => true
  | .dbCopy _ => true
  | .setComment _ => true
  | _ => false

/-- Events that change the content of a database schema through the diff
engine (changeset application or rebase). -/
def Event.isSchemaChange : Event → Bool
  | .dbApply _ _ => true
  | .dbRebase _ _ _ _ => true
  | _ => false

/-- Result of one operation: final world, events in program order, and the
`DbSyncError` message if one was raised. -/
structure OpResult where
  world : World
  events : List Event
  error : Option String
deriving DecidableEq, Repr

@[simp] theorem isDbMutation_serverContact (s : String) :
    (Event.serverContact s).isDbMutation = false := rfl
@[simp] theorem isDbMutation_dbApply (s : String) (d : Int) :
    (Event.dbApply s d).isDbMutation = true := rfl
@[simp] theorem isDbMutation_dbRebase (b m : String) (d : Int) (c : String) :
    (Event.dbRebase b m d c).isDbMutation = true := rfl
@[simp] theorem isDbMutation_dbCopy (s : String) :
    (Event.dbCopy s).isDbMutation = true := rfl
@[simp] theorem isDbMutation_setComment (c : SchemaComment) :
    (Event.setComment c).isDbMutation = true := rfl
@[simp] theorem isDbMutation_fileRemove (s : String) :
    (Event.fileRemove s).isDbMutation = false := rfl
@[simp] theorem isDbMutation_fileWrite (s : String) :
    (Event.fileWrite s).isDbMutation = false := rfl
@[simp] theorem isDbMutation_gpkgApply (d : Int) :
    (Event.gpkgApply d).isDbMutation = false := rfl
@[simp] theorem isDbMutation_workDirRemove :
    (Event.workDirRemove).isDbMutation = false := rfl

@[simp] theorem isSchemaChange_serverContact (s : String) :
    (Event.serverContact s).isSchemaChange = false := rfl
@[simp] theorem isSchemaChange_dbApply (s : String) (d : Int) :
    (Event.dbApply s d).isSchemaChange = true := rfl
@[simp] theorem isSchemaChange_dbRebase (b m : String) (d : Int) (c : String) :
    (Event.dbRebase b m d c).isSchemaChange = true := rfl
@[simp] theorem isSchemaChange_dbCopy (s : String) :
    (Event.dbCopy s).isSchemaChange = false := rfl
@[simp] theorem isSchemaChange_setComment (c : SchemaComment) :
    (Event.setComment c).isSchemaChange = false := rfl
@[simp] theorem isSchemaChange_fileRemove (s : String) :
    (Event.fileRemove s).isSchemaChange = false := rfl
@[simp] theorem isSchemaChange_fileWrite (s : String) :
    (Event.fileWrite s).isSchemaChange = false := rfl
@[simp] theorem isSchemaChange_gpkgApply (d : Int) :
    (Event.gpkgApply d).isSchemaChange = false := rfl
@[simp] theorem isSchemaChange_workDirRemove :
    (Event.workDirRemove).isSchemaChange = false := rfl

/-! ## Error messages (source text, dynamic tails dropped) -/

def msgWorkDirMissing (cfg : ConnConfig) : String :=
  "The project working directory does not exist: " ++ workDirOf cfg

def msgNotMerginDir (cfg : ConnConfig) : String :=
  "The project working directory does not seem to contain Mergin Maps project: " ++ workDirOf cfg

def msgSyncFileMissing (cfg : ConnConfig) : String :=
  "The output GPKG file does not exist: " ++ gpkgPathOf cfg

def msgGeodiffUnavailable : String :=
  "Mergin Maps client installation problem: geodiff not available"

def msgClientError : String := "Mergin Maps client error: "

def msgClientErrorPull : String := "Mergin Maps client error on pull: "

def msgClientErrorPush : String := "Mergin Maps client error on push: "

def msgPendingLocal : String :=
  "There are pending changes in the local directory - that should never happen! "

def msgPendingLocalStatus : String :=
  "Pending changes in the local directory - that should never happen! "

def msgPendingServer : String :=
  "There are pending changes on server - need to pull them first."

def msgBaseSchemaMissing (cfg : ConnConfig) : String :=
  "The base schema does not exist: " ++ cfg.base

def msgModifiedSchemaMissing (cfg : ConnConfig) : String :=
  "The 'modified' schema does not exist: " ++ cfg.modified

def msgDbConnect : String := "Unable to connect to the database: "

def msgCommentMissing : String :=
  "Base schema exists but missing which project it belongs to"

def msgInputGpkgMissing (cfg : ConnConfig) : String :=
  "The input GPKG file does not exist: " ++ gpkgPathOf cfg

def msgBaseNotSynced : String :=
  "The db schemas already exist but 'base' schema is not synchronized with source GPKG"

def msgOutGpkgNotSynced : String :=
  "The output GPKG file exists already but is not synchronized with db 'base' schema"

def msgModifiedExistsBaseMissing (cfg : ConnConfig) : String :=
  "The 'modified' schema exists but the base schema is missing: " ++ cfg.base

def msgBaseExistsModifiedMissing (cfg : ConnConfig) : String :=
  "The base schema exists but the modified schema is missing: " ++ cfg.modified

def msgOutGpkgExistsBaseMissing (cfg : ConnConfig) : String :=
  "The output GPKG exists but the base schema is missing: " ++ cfg.base

def msgBaseExistsOutGpkgMissing (cfg : ConnConfig) : String :=
  "The base schema exists but the output GPKG exists is missing: " ++ gpkgPathOf cfg

/-- The message of the `DbSyncError` raised on a failed init self-check. -/
def msgInitRaise : String :=
  "Initialization of db-sync failed due to a bug in geodiff.\n Please report this problem to mergin-db-sync developers"

/-- The `error` field written into SchemaComment on a failed init. -/
def msgInitCommentError : String :=
  "Initialization of db-sync failed due to a bug in geodiff"

/-- `MerginProject(work_dir)` raises when the directory is not a Mergin
Maps project (unhandled `InvalidProject` in the source). -/
def msgInvalidProjectDir : String := "InvalidProject: "

/-! ## `_run_geodiff` (source lines 63-71) -/

/-- Outcome of the geodiff subprocess: exit code and captured stderr. -/
structure ProcOutcome where
  returncode : Int
  stderrText : String
deriving DecidableEq, Repr

/-- `_run_geodiff`: print stderr if non-empty, raise `DbSyncError` iff the
exit code is non-zero.  Returns (printed lines, raised error). -/
def run_geodiff (cmd : String) (res : ProcOutcome) : List String × Option String :=
  let printed := if res.stderrText = "" then [] else ["GEODIFF: " ++ res.stderrText]
  if res.returncode != 0 then
    (printed, some ("geodiff failed!\n" ++ cmd))
  else
    (printed, none)

/-! ## `pull` (source lines 205-286)

The operations are written without `let` bindings (each branch spells out
its result world and its full event list, factored into small helper
definitions) so that every branch of the source maps to one literal leaf. -/

/-- `theirChanges`: the changeset from the pre-pull basefile snapshot to
the newly downloaded file (source line 266). -/
def pullTheirDelta (w : World) : Int := w.srv.file - w.st.gpkgBasefile

/-- World after `pull` failed in `mc.pull_project` (source line 258-261):
the `base→modified` changeset file has already been written. -/
def pullInterruptedWorld (cfg : ConnConfig) (w : World) : World :=
  ⟨{ w.st with tmpExists := w.st.tmpExists.insert (pullBase2ourPath cfg) }, w.srv⟩

/-- World after `pull` downloaded the new version and applied
`theirChanges` to both schemas (directly, or via rebase of `modified` —
both branches produce these dataset values): working copy and basefile at
the server file, local version at the server version, both schemas
advanced by `theirChanges`.  The two temp changeset files remain. -/
def pullAppliedWorld (cfg : ConnConfig) (w : World) : World :=
  ⟨{ w.st with gpkgFile := w.srv.file, gpkgBasefile := w.srv.file,
               localVersion := w.srv.version,
               baseSchema := w.st.baseSchema + pullTheirDelta w,
               modifiedSchema := w.st.modifiedSchema + pullTheirDelta w,
               tmpExists := (w.st.tmpExists.insert (pullBase2ourPath cfg)).insert
                 (pullBase2theirPath cfg) },
    w.srv⟩

/-- The SchemaComment written by a successful `pull` (source line 286). -/
def pullComment (cfg : ConnConfig) (w : World) : SchemaComment :=
  ⟨cfg.mergin_project, w.srv.version, none⟩

/-- A world with the `base` schema comment replaced. -/
def World.withComment (w : World) (c : SchemaComment) : World :=
  ⟨{ w.st with comment := some c }, w.srv⟩

/-- Events of `pull` up to and including `mc.pull_project` (source lines
224-263): fetch the server version, snapshot the basefile, write the
`base→modified` changeset to the temp path (without removing any
pre-existing file there, line 249), download. -/
def pullCommonEvents (cfg : ConnConfig) : List Event :=
  [Event.serverContact "get_projects_by_names",
   Event.fileWrite (basefileOldPath cfg),
   Event.fileWrite (pullBase2ourPath cfg),
   Event.serverContact "pull_project"]

/-- Events of the no-rebase branch of `pull` (source lines 266-275):
write `theirChanges`, apply it to `base`, then to `modified`. -/
def pullNoRebaseEvents (cfg : ConnConfig) (w : World) : List Event :=
  pullCommonEvents cfg ++
    [Event.fileWrite (pullBase2theirPath cfg),
     Event.dbApply cfg.base (pullTheirDelta w),
     Event.dbApply cfg.modified (pullTheirDelta w)]

/-- Events of the rebase branch of `pull` (source lines 266-281):
write `theirChanges`, rebase `(base, modified, theirChanges)` producing
the conflicts file and mutating `modified`, then apply `theirChanges` to
`base` alone. -/
def pullRebaseEvents (cfg : ConnConfig) (w : World) : List Event :=
  pullCommonEvents cfg ++
    [Event.fileWrite (pullBase2theirPath cfg),
     Event.dbRebase cfg.base cfg.modified (pullTheirDelta w) (pullConflictsPath cfg),
     Event.dbApply cfg.base (pullTheirDelta w)]

/-- No-rebase `pull` interrupted by the unwrapped `psycopg2.connect`
(line 284) after the schema mutations. -/
def pullNoRebaseInterrupted (cfg : ConnConfig) (w : World) : OpResult :=
  ⟨pullAppliedWorld cfg w,
    pullNoRebaseEvents cfg w ++ [Event.fileRemove (basefileOldPath cfg)],
    some msgDbConnect⟩

/-- Successful no-rebase `pull` (source lines 272-286). -/
def pullNoRebaseDone (cfg : ConnConfig) (w : World) : OpResult :=
  ⟨(pullAppliedWorld cfg w).withComment (pullComment cfg w),
    pullNoRebaseEvents cfg w ++
      [Event.fileRemove (basefileOldPath cfg), Event.setComment (pullComment cfg w)],
    none⟩

/-- Rebase `pull` interrupted by the unwrapped `psycopg2.connect`. -/
def pullRebaseInterrupted (cfg : ConnConfig) (w : World) : OpResult :=
  ⟨pullAppliedWorld cfg w,
    pullRebaseEvents cfg w ++ [Event.fileRemove (basefileOldPath cfg)],
    some msgDbConnect⟩

/-- Successful rebase `pull` (source lines 276-286). -/
def pullRebaseDone (cfg : ConnConfig) (w : World) : OpResult :=
  ⟨(pullAppliedWorld cfg w).withComment (pullComment cfg w),
    pullRebaseEvents cfg w ++
      [Event.fileRemove (basefileOldPath cfg), Event.setComment (pullComment cfg w)],
    none⟩

/-- `pull`: download changes from the server and apply them to the
database (source lines 205-286), following the source's order of checks
and effects exactly. -/
def pull (cfg : ConnConfig) (env : Env) (w : World) : OpResult :=
  if !w.st.workDirExists then ⟨w, [], some (msgWorkDirMissing cfg)⟩
  else if !w.st.workDirHasMergin then ⟨w, [], some (msgNotMerginDir cfg)⟩
  else if !w.st.syncFileExists then ⟨w, [], some (msgSyncFileMissing cfg)⟩
  else if !env.geodiffAvailable then ⟨w, [], some msgGeodiffUnavailable⟩
  else if env.clientErrorOnInfo then
    -- mc.get_projects_by_names contacts the server (line 224) before the
    -- pending-changes check (line 230)
    ⟨w, [Event.serverContact "get_projects_by_names"], some msgClientError⟩
  else if env.pendingLocal then
    ⟨w, [Event.serverContact "get_projects_by_names"], some msgPendingLocal⟩
  else if w.srv.version = w.st.localVersion then
    -- "No changes on Mergin Maps." (lines 234-236)
    ⟨w, [Event.serverContact "get_projects_by_names"], none⟩
  else if env.clientErrorOnPull then
    ⟨pullInterruptedWorld cfg w, pullCommonEvents cfg, some msgClientErrorPull⟩
  else if w.st.modifiedSchema - w.st.baseSchema = 0 then
    -- no local DB edits: apply theirChanges to base, then modified
    if !env.dbConnectOk then pullNoRebaseInterrupted cfg w
    else pullNoRebaseDone cfg w
  else
    -- local DB edits present: rebase, then apply theirChanges to base
    if !env.dbConnectOk then pullRebaseInterrupted cfg w
    else pullRebaseDone cfg w

/-! ## `status` (source lines 289-353) -/

/-- World after `status` rewrote its changeset file: the leftover file at
the path was removed (lines 343-344) and the new one created (line 345). -/
def statusWrittenWorld (cfg : ConnConfig) (w : World) : World :=
  ⟨{ w.st with
      tmpExists := (w.st.tmpExists.erase (statusBase2ourPath cfg)).insert
        (statusBase2ourPath cfg) }, w.srv⟩

/-- `status`: read-only report of pending changes (source lines 289-353).
Note the pending-local check (line 307) precedes the server contact
(line 319), unlike in `pull`/`push`. -/
def status (cfg : ConnConfig) (env : Env) (w : World) : OpResult :=
  if !w.st.workDirExists then ⟨w, [], some (msgWorkDirMissing cfg)⟩
  else if !w.st.workDirHasMergin then ⟨w, [], some (msgNotMerginDir cfg)⟩
  else if !w.st.syncFileExists then ⟨w, [], some (msgSyncFileMissing cfg)⟩
  else if !env.geodiffAvailable then ⟨w, [], some msgGeodiffUnavailable⟩
  else if env.pendingLocal then ⟨w, [], some msgPendingLocalStatus⟩
  else if env.clientErrorOnInfo then
    -- mc.project_info (line 319)
    ⟨w, [Event.serverContact "project_info"], some msgClientError⟩
  else if !env.dbConnectOk then
    ⟨w, [Event.serverContact "project_info"], some msgDbConnect⟩
  else if !w.st.baseSchemaExists then
    ⟨w, [Event.serverContact "project_info"], some (msgBaseSchemaMissing cfg)⟩
  else if !w.st.modifiedSchemaExists then
    ⟨w, [Event.serverContact "project_info"], some (msgModifiedSchemaMissing cfg)⟩
  else if w.st.tmpExists.contains (statusBase2ourPath cfg) then
    -- remove the leftover changeset file, then create the new one
    -- (lines 343-345)
    ⟨statusWrittenWorld cfg w,
      [Event.serverContact "project_info",
       Event.fileRemove (statusBase2ourPath cfg),
       Event.fileWrite (statusBase2ourPath cfg)], none⟩
  else
    ⟨statusWrittenWorld cfg w,
      [Event.serverContact "project_info",
       Event.fileWrite (statusBase2ourPath cfg)], none⟩

/-! ## `push` (source lines 356-430) -/

/-- The initial file cleanup of `push` (lines 363-366): the leftover
changeset file is removed before any precondition check. -/
def pushInitialWorld (cfg : ConnConfig) (w : World) : World :=
  ⟨{ w.st with tmpExists := w.st.tmpExists.erase (pushBase2ourPath cfg) }, w.srv⟩

/-- The `os.remove` event of the initial cleanup of `push`, emitted only
when a file existed at the changeset path. -/
def pushInitialEvents (cfg : ConnConfig) (w : World) : List Event :=
  if w.st.tmpExists.contains (pushBase2ourPath cfg) then
    [Event.fileRemove (pushBase2ourPath cfg)]
  else []

/-- The changeset `base→modified` computed by `push` (source line 403). -/
def pushDelta (w : World) : Int := w.st.modifiedSchema - w.st.baseSchema

/-- World after `push` rewrote its changeset file (remove leftover at
lines 363-366, create at line 403). -/
def pushWrittenWorld (cfg : ConnConfig) (w : World) : World :=
  ⟨{ w.st with
      tmpExists := (w.st.tmpExists.erase (pushBase2ourPath cfg)).insert
        (pushBase2ourPath cfg) }, w.srv⟩

/-- World after `push` applied the changeset to the working-copy file
(line 415) but failed to upload: the file mutation is deliberately not
undone (TODO comment, line 421). -/
def pushFileAppliedWorld (cfg : ConnConfig) (w : World) : World :=
  ⟨{ w.st with gpkgFile := w.st.gpkgFile + pushDelta w,
               tmpExists := (w.st.tmpExists.erase (pushBase2ourPath cfg)).insert
                 (pushBase2ourPath cfg) }, w.srv⟩

/-- The SchemaComment written by a successful `push` (source line 430):
the freshly uploaded version. -/
def pushComment (cfg : ConnConfig) (w : World) : SchemaComment :=
  ⟨cfg.mergin_project, w.srv.version + 1, none⟩

/-- World after a fully successful `push` (source lines 413-430): file
and basefile carry the database edits, the server holds the new version,
the changeset has been applied to `base`, and the comment records the
uploaded version. -/
def pushFinalWorld (cfg : ConnConfig) (w : World) : World :=
  ⟨{ w.st with gpkgFile := w.st.gpkgFile + pushDelta w,
               gpkgBasefile := w.st.gpkgFile + pushDelta w,
               localVersion := w.srv.version + 1,
               baseSchema := w.st.baseSchema + pushDelta w,
               comment := some (pushComment cfg w),
               tmpExists := (w.st.tmpExists.erase (pushBase2ourPath cfg)).insert
                 (pushBase2ourPath cfg) },
    ⟨w.srv.version + 1, w.st.gpkgFile + pushDelta w, w.srv.hasSyncFile⟩⟩

/-- An early `push` failure before the server fetch: only the initial
file cleanup happened. -/
def pushEarlyError (cfg : ConnConfig) (w : World) (m : String) : OpResult :=
  ⟨pushInitialWorld cfg w, pushInitialEvents cfg w, some m⟩

/-- A `push` failure after the server fetch (line 380) but before the
changeset computation. -/
def pushFetchedError (cfg : ConnConfig) (w : World) (m : String) : OpResult :=
  ⟨pushInitialWorld cfg w,
    pushInitialEvents cfg w ++ [Event.serverContact "get_projects_by_names"],
    some m⟩

/-- `push` ended as a no-op: the changeset had zero size (lines 405-407)
— the (empty) changeset file was still created at line 403. -/
def pushNoChanges (cfg : ConnConfig) (w : World) : OpResult :=
  ⟨pushWrittenWorld cfg w,
    pushInitialEvents cfg w ++
      [Event.serverContact "get_projects_by_names",
       Event.fileWrite (pushBase2ourPath cfg)], none⟩

/-- `push` failed in the upload (line 419): the working-copy file already
carries the changes, the `base` schema does not. -/
def pushUploadFailed (cfg : ConnConfig) (w : World) : OpResult :=
  ⟨pushFileAppliedWorld cfg w,
    pushInitialEvents cfg w ++
      [Event.serverContact "get_projects_by_names",
       Event.fileWrite (pushBase2ourPath cfg),
       Event.gpkgApply (pushDelta w),
       Event.serverContact "push_project"], some msgClientErrorPush⟩

/-- Fully successful `push` (lines 403-430). -/
def pushDone (cfg : ConnConfig) (w : World) : OpResult :=
  ⟨pushFinalWorld cfg w,
    pushInitialEvents cfg w ++
      [Event.serverContact "get_projects_by_names",
       Event.fileWrite (pushBase2ourPath cfg),
       Event.gpkgApply (pushDelta w),
       Event.serverContact "push_project",
       Event.dbApply cfg.base (pushDelta w),
       Event.setComment (pushComment cfg w)], none⟩

/-- `push`: send database edits to the server (source lines 356-430),
following the source's order of checks and effects exactly.  The leftover
changeset file is removed first (lines 363-366), before any precondition
check; the precondition checks read state the cleanup does not touch. -/
def push (cfg : ConnConfig) (env : Env) (w : World) : OpResult :=
  if !w.st.workDirExists then pushEarlyError cfg w (msgWorkDirMissing cfg)
  else if !w.st.workDirHasMergin then pushEarlyError cfg w (msgNotMerginDir cfg)
  else if !w.st.syncFileExists then pushEarlyError cfg w (msgSyncFileMissing cfg)
  else if !env.geodiffAvailable then pushEarlyError cfg w msgGeodiffUnavailable
  else if env.clientErrorOnInfo then
    -- mc.get_projects_by_names: contacts the server (line 380) before
    -- the pending-changes check (line 386)
    pushFetchedError cfg w msgClientError
  else if env.pendingLocal then pushFetchedError cfg w msgPendingLocal
  else if w.srv.version ≠ w.st.localVersion then pushFetchedError cfg w msgPendingServer
  else if !env.dbConnectOk then pushFetchedError cfg w msgDbConnect
  else if !w.st.baseSchemaExists then pushFetchedError cfg w (msgBaseSchemaMissing cfg)
  else if !w.st.modifiedSchemaExists then
    pushFetchedError cfg w (msgModifiedSchemaMissing cfg)
  else if pushDelta w = 0 then pushNoChanges cfg w
  else if env.clientErrorOnPush then pushUploadFailed cfg w
  else pushDone cfg w

/-! ## `init` (source lines 433-616) -/

/-- `mc.download_project(project, work_dir, version)`: creates the working
directory positioned at the requested version.  File contents are modelled
as the server's current file (per-version contents are not distinguished
in this model; no claim depends on them). -/
def downloadProject (w : World) (version : Nat) : World :=
  ⟨{ w.st with workDirExists := true, workDirHasMergin := true,
               syncFileExists := w.srv.hasSyncFile, gpkgFile := w.srv.file,
               gpkgBasefile := w.srv.file, localVersion := version }, w.srv⟩

/-- The working-directory reconciliation stage of `init` (source lines
452-490): read the SchemaComment when both schemas exist, fail fast on a
missing comment or a recorded `error`, and (re)download the working copy
at the recorded (resp. latest) version.  When the working directory exists
but is not a Mergin Maps project, `MerginProject(work_dir)` raises an
unhandled `InvalidProject` in the source (lines 472/485), modelled as an
error result. -/
def initWorkdirStage (_cfg : ConnConfig) (_env : Env) (w : World) : OpResult :=
  if w.st.modifiedSchemaExists && w.st.baseSchemaExists then
    match w.st.comment with
    | none => ⟨w, [], some msgCommentMissing⟩
    | some c =>
      match c.error with
      | some err =>
        -- re-display the diff between the source file and base
        -- (`_compare_datasets`, lines 459-463), then raise the stored error
        ⟨w, [], some err⟩
      | none =>
        if !w.st.workDirExists then
          ⟨downloadProject w c.version, [Event.serverContact "download_project"], none⟩
        else if !w.st.workDirHasMergin then ⟨w, [], some msgInvalidProjectDir⟩
        else if w.st.localVersion ≠ c.version then
          -- stale working copy: delete and re-download (lines 475-479)
          ⟨downloadProject w c.version,
            [Event.workDirRemove, Event.serverContact "download_project"], none⟩
        else ⟨w, [], none⟩
  else
    if !w.st.workDirExists then
      ⟨downloadProject w w.srv.version, [Event.serverContact "download_project"], none⟩
    else if !w.st.workDirHasMergin then ⟨w, [], some msgInvalidProjectDir⟩
    else ⟨w, [], none⟩

/-- The message of the `DbSyncError` raised by `_run_geodiff` when a geodiff
copy invocation exits non-zero during `init`. -/
def msgGeodiffFailed : String := "geodiff failed!\n"

/-- `mc.push_project` raising `ClientError` inside `init` is unhandled in
the source (line 611); modelled as an error result. -/
def msgClientErrorUnhandled : String := "ClientError: "

/-- The error SchemaComment written by the except handler of a failed
init (source lines 549-553 / 605-608). -/
def initErrComment (cfg : ConnConfig) (w : World) : SchemaComment :=
  ⟨cfg.mergin_project, w.st.localVersion, some msgInitCommentError⟩

/-- The SchemaComment written by a successful `init-from-gpkg`
(source line 555): the current local version, no error. -/
def initOkComment (cfg : ConnConfig) (w : World) : SchemaComment :=
  ⟨cfg.mergin_project, w.st.localVersion, none⟩

/-- State after the two copies of the from-GPKG fresh path (source lines
530-535): gpkg → `modified` (corrupted by `copyErr1`), `modified` →
`base` (further corrupted by `copyErr2`). -/
def initGpkgCopiedState (env : Env) (w : World) : SyncState :=
  { w.st with modifiedSchema := w.st.gpkgFile + env.copyErr1,
              modifiedSchemaExists := true,
              baseSchema := w.st.gpkgFile + env.copyErr1 + env.copyErr2,
              baseSchemaExists := true }

/-- State after the two copies of the from-DB fresh path (source lines
588-593): `modified` → `base` and `modified` → gpkg. -/
def initDbCopiedState (env : Env) (w : World) : SyncState :=
  { w.st with baseSchema := w.st.modifiedSchema + env.copyErr1,
              baseSchemaExists := true,
              gpkgFile := w.st.modifiedSchema + env.copyErr2,
              syncFileExists := true }

/-- The from-GPKG direction of `init` (source lines 499-555).  `baseEx`
and `modEx` are the schema-existence flags captured at lines 447-448;
`w` is the world after the working-directory stage, `evts` the events so
far. -/
def initFromGpkg (cfg : ConnConfig) (env : Env) (baseEx modEx : Bool) (w : World)
    (evts : List Event) : OpResult :=
  if !w.st.syncFileExists then ⟨w, evts, some (msgInputGpkgMissing cfg)⟩
  else if modEx && baseEx then
    -- compare the file against modified and against base (lines 503-520)
    if w.st.gpkgFile ≠ w.st.baseSchema then ⟨w, evts, some msgBaseNotSynced⟩
    else if w.st.gpkgFile ≠ w.st.modifiedSchema then
      ⟨w, evts, none⟩  -- "please run pull/push commands to fix it"
    else ⟨w, evts, none⟩  -- already initialized and in sync
  else if modEx then ⟨w, evts, some (msgModifiedExistsBaseMissing cfg)⟩
  else if baseEx then ⟨w, evts, some (msgBaseExistsModifiedMissing cfg)⟩
  else if !env.copySucceeds then
    -- a geodiff copy failed inside the try block: the except handler
    -- writes the error comment, then re-raises (lines 549-553)
    ⟨⟨{ w.st with comment := some (initErrComment cfg w) }, w.srv⟩,
      evts ++ [Event.setComment (initErrComment cfg w)], some msgGeodiffFailed⟩
  else if w.st.gpkgFile + env.copyErr1 + env.copyErr2 ≠ w.st.gpkgFile then
    -- self-check failed: the changeset between the file and the fresh
    -- base is non-empty (lines 540-553)
    ⟨⟨{ initGpkgCopiedState env w with comment := some (initErrComment cfg w) }, w.srv⟩,
      evts ++ [Event.dbCopy cfg.modified, Event.dbCopy cfg.base,
               Event.setComment (initErrComment cfg w)], some msgInitRaise⟩
  else
    ⟨⟨{ initGpkgCopiedState env w with comment := some (initOkComment cfg w) }, w.srv⟩,
      evts ++ [Event.dbCopy cfg.modified, Event.dbCopy cfg.base,
               Event.setComment (initOkComment cfg w)], none⟩

/-- The from-DB direction of `init` (source lines 556-615). -/
def initFromDb (cfg : ConnConfig) (env : Env) (baseEx modEx : Bool) (w : World)
    (evts : List Event) : OpResult :=
  if !modEx then ⟨w, evts, some (msgModifiedSchemaMissing cfg)⟩
  else if w.st.syncFileExists && baseEx then
    -- compare modified and base against the existing file (lines 560-577)
    if w.st.baseSchema ≠ w.st.gpkgFile then ⟨w, evts, some msgOutGpkgNotSynced⟩
    else if w.st.modifiedSchema ≠ w.st.gpkgFile then
      ⟨w, evts, none⟩  -- "please run pull/push commands to fix it"
    else ⟨w, evts, none⟩  -- already initialized and in sync
  else if w.st.syncFileExists then ⟨w, evts, some (msgOutGpkgExistsBaseMissing cfg)⟩
  else if baseEx then ⟨w, evts, some (msgBaseExistsOutGpkgMissing cfg)⟩
  else if !env.copySucceeds then
    ⟨⟨{ w.st with comment := some (initErrComment cfg w) }, w.srv⟩,
      evts ++ [Event.setComment (initErrComment cfg w)], some msgGeodiffFailed⟩
  else if w.st.modifiedSchema + env.copyErr2 ≠ w.st.modifiedSchema + env.copyErr1 then
    -- self-check: the file copy differs from the base copy (lines 595-608)
    ⟨⟨{ initDbCopiedState env w with comment := some (initErrComment cfg w) }, w.srv⟩,
      evts ++ [Event.dbCopy cfg.base, Event.fileWrite (gpkgPathOf cfg),
               Event.setComment (initErrComment cfg w)], some msgInitRaise⟩
  else if env.clientErrorOnPush then
    -- mc.push_project (line 611) raising ClientError is unhandled
    ⟨⟨initDbCopiedState env w, w.srv⟩,
      evts ++ [Event.dbCopy cfg.base, Event.fileWrite (gpkgPathOf cfg),
               Event.serverContact "push_project"], some msgClientErrorUnhandled⟩
  else
    -- upload the new file as a new hosted version, then record that
    -- version in SchemaComment (lines 611-615)
    ⟨⟨{ initDbCopiedState env w with
          localVersion := w.srv.version + 1,
          gpkgBasefile := w.st.modifiedSchema + env.copyErr2,
          comment := some ⟨cfg.mergin_project, w.srv.version + 1, none⟩ },
        ⟨w.srv.version + 1, w.st.modifiedSchema + env.copyErr2, true⟩⟩,
      evts ++ [Event.dbCopy cfg.base, Event.fileWrite (gpkgPathOf cfg),
               Event.serverContact "push_project",
               Event.setComment ⟨cfg.mergin_project, w.srv.version + 1, none⟩], none⟩

/-- The part of `init` after the working-directory stage (source lines
489-615): re-check the working directory, contact the server for the
project status (line 493; pending server changes only print a notice),
fail on pending local changes (lines 496-497), then branch on the
direction flag. -/
def initMain (cfg : ConnConfig) (env : Env) (baseEx modEx : Bool) (w : World)
    (evts : List Event) (fromGpkg : Bool) : OpResult :=
  if !w.st.workDirExists then ⟨w, evts, some (msgWorkDirMissing cfg)⟩
  else if !w.st.workDirHasMergin then ⟨w, evts, some (msgNotMerginDir cfg)⟩
  else if env.pendingLocal then
    ⟨w, evts ++ [Event.serverContact "project_status"], some msgPendingLocal⟩
  else if fromGpkg then
    initFromGpkg cfg env baseEx modEx w (evts ++ [Event.serverContact "project_status"])
  else
    initFromDb cfg env baseEx modEx w (evts ++ [Event.serverContact "project_status"])

/-- `init` (source lines 433-616): initialize the two-way sync.
`fromGpkg = true` treats the GeoPackage file as authoritative,
`fromGpkg = false` the `modified` schema.  Schema existence is captured
once up front (lines 447-448). -/
def init (cfg : ConnConfig) (env : Env) (w : World) (fromGpkg : Bool) : OpResult :=
  if !env.dbConnectOk then ⟨w, [], some msgDbConnect⟩
  else
    match initWorkdirStage cfg env w with
    | ⟨w2, evts, some e⟩ => ⟨w2, evts, some e⟩
    | ⟨w2, evts, none⟩ =>
      initMain cfg env w.st.baseSchemaExists w.st.modifiedSchemaExists w2 evts fromGpkg

/-! ## Orchestrator and CLI dispatch (source lines 618-688) -/

/-- `dbsync_init` (source lines 618-622) for a single configured
connection: it calls `init(conn, mc, from_gpkg=True)` with the literal
constant `True` (line 620), regardless of its own `from_gpkg` argument. -/
def dbsync_init (cfg : ConnConfig) (env : Env) (w : World) (fromGpkg : Bool) : OpResult :=
  init cfg env w true

/-- The subcommand dispatch of `main` (source lines 654-688) for a single
configured connection: `init-from-gpkg` calls `dbsync_init(mc, True)`
(line 673), `init-from-db` calls `dbsync_init(mc, False)` (line 676).
Unknown subcommands print usage and do nothing. -/
def mainCli (arg : String) (cfg : ConnConfig) (env : Env) (w : World) : OpResult :=
  if arg = "init-from-gpkg" then dbsync_init cfg env w true
  else if arg = "init-from-db" then dbsync_init cfg env w false
  else if arg = "status" then status cfg env w
  else if arg = "push" then push cfg env w
  else if arg = "pull" then pull cfg env w
  else ⟨w, [], none⟩

/-! ## Concrete fixtures used by witnesses and counterexamples

The configuration mirrors the repository's test scenario (spec §8):
`base="mergin_base"`, `modified="mergin_main"`, project `"john/dbsync"`,
sync file `"sync.gpkg"`. -/

def cfg0 : ConnConfig := ⟨"/work", "john/dbsync", "sync.gpkg", "mergin_base", "mergin_main"⟩

/-- All collaborators behave: no pending changes, no client errors,
faithful geodiff copies. -/
def env0 : Env := ⟨false, false, true, true, false, false, false, true, 0, 0⟩

/-- A healthy initialized local state at version 1, with a pending
database edit (`modified = 8` vs `base = 5`). -/
def st0 : SyncState :=
  ⟨true, true, true, 5, 5, 1, true, true, 5, 8, some ⟨"john/dbsync", 1, none⟩, []⟩

/-- Server at the same version as the local copy. -/
def wEq : World := ⟨st0, ⟨1, 5, true⟩⟩

/-- Server one version ahead of the local copy. -/
def wAhead : World := ⟨st0, ⟨2, 9, true⟩⟩

/-! ## Helper lemmas shared by the claim proofs -/

theorem initWorkdirStage_filter (cfg : ConnConfig) (env : Env) (w : World) :
    (initWorkdirStage cfg env w).events.filter Event.isDbMutation = [] := by
  rcases hE : initWorkdirStage cfg env w with ⟨w1, ev1, er1⟩
  unfold initWorkdirStage at hE
  repeat' split at hE
  all_goals injection hE with h1 h2 h3
  all_goals subst h2
  all_goals rfl

theorem pushInitialEvents_filter (cfg : ConnConfig) (w : World) :
    (pushInitialEvents cfg w).filter Event.isDbMutation = [] := by
  unfold pushInitialEvents
  split <;> rfl

theorem serverContact_not_mem_pushInitialEvents (cfg : ConnConfig) (w : World) (s : String) :
    Event.serverContact s ∉ pushInitialEvents cfg w := by
  unfold pushInitialEvents
  split <;> simp

/-! ## Claim C10 -/

/-- C10: for every invocation of the diff engine through `_run_geodiff`, a
`DbSyncError` is raised if and only if the subprocess exits with a non-zero
status code; stderr output is printed iff non-empty, independently of the
exit code, and is never itself treated as a failure. -/
theorem C10_run_geodiff_failure_iff_nonzero_exit (cmd : String) (res : ProcOutcome) :
    ((run_geodiff cmd res).2.isSome ↔ res.returncode ≠ 0)
    ∧ ((run_geodiff cmd res).1 = [] ↔ res.stderrText = "") := by
  unfold run_geodiff
  constructor <;> split <;> split <;> simp_all

/-- Witness: a run with empty stderr and zero exit raises nothing and
prints nothing. -/
theorem C10_run_geodiff_failure_iff_nonzero_exit_witness :
    ((run_geodiff "diff" ⟨0, ""⟩).2.isSome ↔ (0 : Int) ≠ 0)
    ∧ ((run_geodiff "diff" ⟨0, ""⟩).1 = [] ↔ "" = "") :=
  C10_run_geodiff_failure_iff_nonzero_exit "diff" ⟨0, ""⟩

/-! ## Claim C8 -/

/-- C8: every `pull` invoked when the server version equals the local
version is a no-op: the whole world (in particular the `base` and
`modified` schemas, the working-copy file and the SchemaComment) is
unchanged and no database-mutating event is performed. -/
theorem C8_pull_noop_when_versions_equal (cfg : ConnConfig) (env : Env) (w : World)
    (h : w.srv.version = w.st.localVersion) :
    (pull cfg env w).world = w
    ∧ (pull cfg env w).events.filter Event.isDbMutation = [] := by
  unfold pull
  repeat' split
  all_goals first
    | exact ⟨rfl, rfl⟩
    | simp_all

/-- Witness: C8 at the concrete in-sync world. -/
theorem C8_pull_noop_when_versions_equal_witness :
    (pull cfg0 env0 wEq).world = wEq
    ∧ (pull cfg0 env0 wEq).events.filter Event.isDbMutation = [] :=
  C8_pull_noop_when_versions_equal cfg0 env0 wEq rfl

/-! ## Claim C2 -/

set_option maxHeartbeats 2000000 in
/-- C2: whenever the upload step of `push` fails (`mc.push_project` raises
`ClientError`), the changeset is not applied to the `base` schema and the
SchemaComment is not updated: `base` and `modified` keep their pre-push
contents, no database-mutating event occurs, and whenever the upload was
actually attempted the operation raises the wrapped client error. -/
theorem C2_push_upload_failure_preserves_base (cfg : ConnConfig) (env : Env) (w : World)
    (hfail : env.clientErrorOnPush = true) :
    (push cfg env w).world.st.baseSchema = w.st.baseSchema
    ∧ (push cfg env w).world.st.modifiedSchema = w.st.modifiedSchema
    ∧ (push cfg env w).world.st.comment = w.st.comment
    ∧ (push cfg env w).events.filter Event.isDbMutation = []
    ∧ (Event.serverContact "push_project" ∈ (push cfg env w).events →
        (push cfg env w).error = some msgClientErrorPush) := by
  rcases hE : push cfg env w with ⟨w1, ev1, er1⟩
  unfold push at hE
  repeat' split at hE
  all_goals simp only [pushEarlyError, pushFetchedError, pushNoChanges,
    pushUploadFailed, pushDone] at hE
  all_goals injection hE with h1 h2 h3
  all_goals subst h1 h2 h3
  all_goals
    simp_all [pushInitialWorld, pushWrittenWorld, pushFileAppliedWorld,
      pushInitialEvents_filter, serverContact_not_mem_pushInitialEvents]

/-- Witness: C2 at the concrete world with a failing upload. -/
theorem C2_push_upload_failure_preserves_base_witness :
    (push cfg0 { env0 with clientErrorOnPush := true } wEq).world.st.baseSchema
        = wEq.st.baseSchema
    ∧ (push cfg0 { env0 with clientErrorOnPush := true } wEq).world.st.modifiedSchema
        = wEq.st.modifiedSchema
    ∧ (push cfg0 { env0 with clientErrorOnPush := true } wEq).world.st.comment
        = wEq.st.comment
    ∧ (push cfg0 { env0 with clientErrorOnPush := true } wEq).events.filter
        Event.isDbMutation = []
    ∧ (Event.serverContact "push_project"
          ∈ (push cfg0 { env0 with clientErrorOnPush := true } wEq).events →
        (push cfg0 { env0 with clientErrorOnPush := true } wEq).error
          = some msgClientErrorPush) :=
  C2_push_upload_failure_preserves_base cfg0 { env0 with clientErrorOnPush := true } wEq rfl

/-! ## Claim C7 -/

/-- C7: from every valid starting state (working directory and sync file
present, geodiff available, no pending local edits, server version equal
to local version, both schemas existing, non-empty `base`→`modified`
changeset, collaborators succeeding), `push` succeeds, afterwards the
`base` schema equals the `modified` schema, and the uploaded version
(the new server version) equals the version recorded in SchemaComment. -/
theorem C7_push_convergence (cfg : ConnConfig) (env : Env) (w : World)
    (hwd : w.st.workDirExists = true) (hmg : w.st.workDirHasMergin = true)
    (hsf : w.st.syncFileExists = true) (hgd : env.geodiffAvailable = true)
    (hci : env.clientErrorOnInfo = false) (hpl : env.pendingLocal = false)
    (hv : w.srv.version = w.st.localVersion) (hdb : env.dbConnectOk = true)
    (hbe : w.st.baseSchemaExists = true) (hme : w.st.modifiedSchemaExists = true)
    (hne : w.st.baseSchema ≠ w.st.modifiedSchema) (hcp : env.clientErrorOnPush = false) :
    (push cfg env w).error = none
    ∧ (push cfg env w).world.st.baseSchema = (push cfg env w).world.st.modifiedSchema
    ∧ (push cfg env w).world.srv.version = w.srv.version + 1
    ∧ (push cfg env w).world.st.comment
        = some ⟨cfg.mergin_project, w.srv.version + 1, none⟩ := by
  have hd : pushDelta w ≠ 0 := sub_ne_zero.mpr (Ne.symm hne)
  have hpush : push cfg env w = pushDone cfg w := by
    unfold push
    simp [hwd, hmg, hsf, hgd, hci, hpl, hv, hdb, hbe, hme, hcp, hd]
  rw [hpush]
  refine ⟨rfl, ?_, rfl, rfl⟩
  show (pushFinalWorld cfg w).st.baseSchema = (pushFinalWorld cfg w).st.modifiedSchema
  simp only [pushFinalWorld, pushDelta]
  omega

/-- Witness: C7 at the concrete valid world with a pending DB edit. -/
theorem C7_push_convergence_witness :
    (push cfg0 env0 wEq).error = none
    ∧ (push cfg0 env0 wEq).world.st.baseSchema = (push cfg0 env0 wEq).world.st.modifiedSchema
    ∧ (push cfg0 env0 wEq).world.srv.version = wEq.srv.version + 1
    ∧ (push cfg0 env0 wEq).world.st.comment
        = some ⟨cfg0.mergin_project, wEq.srv.version + 1, none⟩ :=
  C7_push_convergence cfg0 env0 wEq rfl rfl rfl rfl rfl rfl rfl rfl rfl rfl
    (by decide) rfl

/-! ## Claim C1 -/

/-- The starting state documented for `init-from-db` (usage text, line
647): the `modified` schema exists with live data, the `base` schema and
the working-copy GeoPackage do not exist yet. -/
def w1 : World :=
  ⟨{ st0 with baseSchemaExists := false, syncFileExists := false,
              baseSchema := 0, comment := none }, ⟨1, 5, false⟩⟩

/-- C1 (code bug): the claim says `init-from-db` runs initialization in
the from-database direction (`from_gpkg=false`).  In the code,
`dbsync_init` (line 620) calls `init(conn, mc, from_gpkg=True)` with a
hard-coded `True`, ignoring the `False` passed by `main` (line 676).  On
the documented init-from-db starting state the CLI therefore fails with
"The input GPKG file does not exist" — while `init` with
`from_gpkg=false` (what the spec describes) succeeds, creates the file
and uploads a new version.  The first conjunct also records that
`dbsync_init` yields the from-GPKG run verbatim. -/
theorem C1_cli_init_from_db_runs_from_gpkg :
    dbsync_init cfg0 env0 w1 false = init cfg0 env0 w1 true
    ∧ (mainCli "init-from-db" cfg0 env0 w1).error = some (msgInputGpkgMissing cfg0)
    ∧ (init cfg0 env0 w1 false).error = none
    ∧ Event.serverContact "push_project" ∈ (init cfg0 env0 w1 false).events
    ∧ (init cfg0 env0 w1 false).world.st.syncFileExists = true := by
  refine ⟨rfl, ?_, ?_, ?_, ?_⟩ <;> decide

/-! ## Claim C3 -/

/-- C3: on a fresh `init-from-gpkg` (both schemas absent, working copy
and source file present, no pending edits, copies exiting successfully):
if the final file and `base` schema differ (the self-check changeset is
non-empty), the operation fails with the geodiff-bug error and the
SchemaComment carries the non-empty `error` field; if the operation
succeeds, the self-check changeset is empty (file equals `base`) and the
SchemaComment records the current local version with no error. -/
theorem C3_init_from_gpkg_selfcheck (cfg : ConnConfig) (env : Env) (w : World)
    (hdb : env.dbConnectOk = true) (hwd : w.st.workDirExists = true)
    (hmg : w.st.workDirHasMergin = true) (hsf : w.st.syncFileExists = true)
    (hbe : w.st.baseSchemaExists = false) (hme : w.st.modifiedSchemaExists = false)
    (hpl : env.pendingLocal = false) (hcs : env.copySucceeds = true) :
    ((init cfg env w true).world.st.gpkgFile ≠ (init cfg env w true).world.st.baseSchema →
      (init cfg env w true).error = some msgInitRaise
      ∧ (init cfg env w true).world.st.comment
          = some ⟨cfg.mergin_project, w.st.localVersion, some msgInitCommentError⟩
      ∧ msgInitCommentError ≠ "")
    ∧ ((init cfg env w true).error = none →
      (init cfg env w true).world.st.gpkgFile = (init cfg env w true).world.st.baseSchema
      ∧ (init cfg env w true).world.st.comment
          = some ⟨cfg.mergin_project, w.st.localVersion, none⟩) := by
  have hstage : initWorkdirStage cfg env w = ⟨w, [], none⟩ := by
    unfold initWorkdirStage
    simp [hbe, hme, hwd, hmg]
  have hrun : init cfg env w true
      = initFromGpkg cfg env false false w [Event.serverContact "project_status"] := by
    unfold init initMain
    rw [hstage]
    simp [hdb, hwd, hmg, hpl, hbe, hme]
  rw [hrun]
  unfold initFromGpkg
  by_cases hsc : w.st.gpkgFile + env.copyErr1 + env.copyErr2 = w.st.gpkgFile
  · simp [hsf, hcs, hsc, initGpkgCopiedState, initOkComment]
  · simp [hsf, hcs, hsc, initGpkgCopiedState, initErrComment, msgInitCommentError]

/-- A fresh world: neither schema exists yet, the working copy and its
GeoPackage are in place. -/
def wFresh : World :=
  ⟨{ st0 with baseSchemaExists := false, modifiedSchemaExists := false,
              baseSchema := 0, modifiedSchema := 0, comment := none },
   ⟨1, 5, true⟩⟩

/-- Witness: C3 at a concrete fresh initialization with faithful copies. -/
theorem C3_init_from_gpkg_selfcheck_witness :
    ((init cfg0 env0 wFresh true).world.st.gpkgFile
          ≠ (init cfg0 env0 wFresh true).world.st.baseSchema →
      (init cfg0 env0 wFresh true).error = some msgInitRaise
      ∧ (init cfg0 env0 wFresh true).world.st.comment
          = some ⟨cfg0.mergin_project, wFresh.st.localVersion, some msgInitCommentError⟩
      ∧ msgInitCommentError ≠ "")
    ∧ ((init cfg0 env0 wFresh true).error = none →
      (init cfg0 env0 wFresh true).world.st.gpkgFile
          = (init cfg0 env0 wFresh true).world.st.baseSchema
      ∧ (init cfg0 env0 wFresh true).world.st.comment
          = some ⟨cfg0.mergin_project, wFresh.st.localVersion, none⟩) :=
  C3_init_from_gpkg_selfcheck cfg0 env0 wFresh rfl rfl rfl rfl rfl rfl rfl rfl

/-! ## Claim C4 -/

/-- A healthy world whose `base` schema carries an `error` annotation
from a previously failed init. -/
def wErr : World :=
  ⟨{ st0 with comment := some ⟨"john/dbsync", 1, some "init failed"⟩ }, ⟨1, 5, true⟩⟩

/-- C4 counterexample: the claim says that after an error annotation is
set, every subsequent operation fails fast and the annotation stays until
manually cleared.  But `push` never reads the annotation: on a world
whose comment carries an error, `push` runs to success and overwrites the
comment with an error-free one. -/
theorem C4_error_annotation_counterexample :
    wErr.st.comment = some ⟨"john/dbsync", 1, some "init failed"⟩
    ∧ (push cfg0 env0 wErr).error = none
    ∧ (push cfg0 env0 wErr).world.st.comment = some ⟨"john/dbsync", 2, none⟩ := by
  refine ⟨rfl, ?_, ?_⟩ <;> decide

/-- C4 (amended): only `init` checks the error annotation.  Every `init`
run (either direction) against a pair whose both schemas exist and whose
comment carries `error err` fails fast with exactly the stored
diagnostic and leaves the annotation in place; `pull` and `push` do not
consult the annotation and overwrite it on success (see the
counterexample). -/
theorem C4_init_fails_fast_on_error_annotation (cfg : ConnConfig) (env : Env)
    (w : World) (b : Bool) (c : SchemaComment) (err : String)
    (hdb : env.dbConnectOk = true)
    (hbe : w.st.baseSchemaExists = true) (hme : w.st.modifiedSchemaExists = true)
    (hc : w.st.comment = some c) (herr : c.error = some err) :
    (init cfg env w b).error = some err
    ∧ (init cfg env w b).world.st.comment = some c := by
  have hstage : initWorkdirStage cfg env w = ⟨w, [], some err⟩ := by
    unfold initWorkdirStage
    simp [hbe, hme, hc, herr]
  unfold init
  rw [hstage]
  simp [hdb, hc]

/-- Witness: C4 (amended) at the concrete error-annotated world. -/
theorem C4_init_fails_fast_on_error_annotation_witness :
    (init cfg0 env0 wErr true).error = some "init failed"
    ∧ (init cfg0 env0 wErr true).world.st.comment
        = some ⟨"john/dbsync", 1, some "init failed"⟩ :=
  C4_init_fails_fast_on_error_annotation cfg0 env0 wErr true
    ⟨"john/dbsync", 1, some "init failed"⟩ "init failed" rfl rfl rfl rfl rfl

/-! ## Claim C5 -/

/-- An environment reporting pending local file changes. -/
def envPend : Env := { env0 with pendingLocal := true }

/-- C5 counterexample: the claim says every operation invoked with
pending local changes fails "before contacting the project server".  But
`pull` fetches the server version (`mc.get_projects_by_names`, line 224)
before its pending-changes check (line 230): the failing run's trace
contains a server contact. -/
theorem C5_pending_guard_counterexample :
    (pull cfg0 envPend wAhead).error = some msgPendingLocal
    ∧ Event.serverContact "get_projects_by_names" ∈ (pull cfg0 envPend wAhead).events := by
  refine ⟨?_, ?_⟩ <;> decide

theorem pull_pending_guard (cfg : ConnConfig) (env : Env) (w : World)
    (h : env.pendingLocal = true) :
    (pull cfg env w).error.isSome = true
    ∧ (pull cfg env w).events.filter Event.isDbMutation = [] := by
  unfold pull
  repeat' split
  all_goals simp_all

theorem push_pending_guard (cfg : ConnConfig) (env : Env) (w : World)
    (h : env.pendingLocal = true) :
    (push cfg env w).error.isSome = true
    ∧ (push cfg env w).events.filter Event.isDbMutation = [] := by
  unfold push
  repeat' split
  all_goals
    simp_all [pushEarlyError, pushFetchedError, pushInitialEvents_filter]

theorem status_pending_guard (cfg : ConnConfig) (env : Env) (w : World)
    (h : env.pendingLocal = true) :
    (status cfg env w).error.isSome = true
    ∧ (status cfg env w).events.filter Event.isDbMutation = [] := by
  unfold status
  repeat' split
  all_goals simp_all

theorem init_pending_guard (cfg : ConnConfig) (env : Env) (w : World) (b : Bool)
    (h : env.pendingLocal = true) :
    (init cfg env w b).error.isSome = true
    ∧ (init cfg env w b).events.filter Event.isDbMutation = [] := by
  have hf := initWorkdirStage_filter cfg env w
  unfold init initMain
  repeat' split
  all_goals simp_all [List.filter_append]

/-- C5 (amended): every operation (`pull`, `push`, `status`, `init` in
either direction) invoked while the working directory reports pending
local file changes fails, and its trace contains no database mutation —
but not necessarily before contacting the project server: `pull` and
`push` fetch the server version first, and `init` calls
`mc.project_status` to learn of the pending changes (see the
counterexample); only `status` checks before contacting the server. -/
theorem C5_pending_guard_blocks_db_mutation (cfg : ConnConfig) (env : Env)
    (w : World) (b : Bool) (h : env.pendingLocal = true) :
    ((pull cfg env w).error.isSome = true
      ∧ (pull cfg env w).events.filter Event.isDbMutation = [])
    ∧ ((push cfg env w).error.isSome = true
      ∧ (push cfg env w).events.filter Event.isDbMutation = [])
    ∧ ((status cfg env w).error.isSome = true
      ∧ (status cfg env w).events.filter Event.isDbMutation = [])
    ∧ ((init cfg env w b).error.isSome = true
      ∧ (init cfg env w b).events.filter Event.isDbMutation = []) :=
  ⟨pull_pending_guard cfg env w h, push_pending_guard cfg env w h,
   status_pending_guard cfg env w h, init_pending_guard cfg env w b h⟩

/-- Witness: C5 (amended) at the concrete pending-changes environment. -/
theorem C5_pending_guard_blocks_db_mutation_witness :
    ((pull cfg0 envPend wAhead).error.isSome = true
      ∧ (pull cfg0 envPend wAhead).events.filter Event.isDbMutation = [])
    ∧ ((push cfg0 envPend wAhead).error.isSome = true
      ∧ (push cfg0 envPend wAhead).events.filter Event.isDbMutation = [])
    ∧ ((status cfg0 envPend wAhead).error.isSome = true
      ∧ (status cfg0 envPend wAhead).events.filter Event.isDbMutation = [])
    ∧ ((init cfg0 envPend wAhead true).error.isSome = true
      ∧ (init cfg0 envPend wAhead true).events.filter Event.isDbMutation = []) :=
  C5_pending_guard_blocks_db_mutation cfg0 envPend wAhead true rfl

/-! ## Claim C6 -/

/-- C6: for every `pull` whose server version differs from the local
version (with the preconditions passing and the collaborators
succeeding): if the `base`→`modified` changeset is empty, `theirChanges`
is applied to the `base` schema first and then to the `modified` schema;
if it is non-empty, the diff-engine rebase is invoked on
`(base, modified, theirChanges)` producing the conflicts file and
mutating `modified`, and `theirChanges` is then applied to `base` alone.
In both cases each schema advances by exactly `theirChanges` against its
own current state. -/
theorem C6_pull_rebase_dispatch (cfg : ConnConfig) (env : Env) (w : World)
    (hwd : w.st.workDirExists = true) (hmg : w.st.workDirHasMergin = true)
    (hsf : w.st.syncFileExists = true) (hgd : env.geodiffAvailable = true)
    (hci : env.clientErrorOnInfo = false) (hpl : env.pendingLocal = false)
    (hv : w.srv.version ≠ w.st.localVersion) (hcp : env.clientErrorOnPull = false)
    (hdb : env.dbConnectOk = true) :
    (pull cfg env w).world.st.baseSchema = w.st.baseSchema + pullTheirDelta w
    ∧ (pull cfg env w).world.st.modifiedSchema = w.st.modifiedSchema + pullTheirDelta w
    ∧ (w.st.baseSchema = w.st.modifiedSchema →
        (pull cfg env w).events.filter Event.isSchemaChange
          = [Event.dbApply cfg.base (pullTheirDelta w),
             Event.dbApply cfg.modified (pullTheirDelta w)])
    ∧ (w.st.baseSchema ≠ w.st.modifiedSchema →
        (pull cfg env w).events.filter Event.isSchemaChange
          = [Event.dbRebase cfg.base cfg.modified (pullTheirDelta w) (pullConflictsPath cfg),
             Event.dbApply cfg.base (pullTheirDelta w)]) := by
  by_cases hbm : w.st.baseSchema = w.st.modifiedSchema
  · have hz : w.st.modifiedSchema - w.st.baseSchema = 0 := by omega
    have hrun : pull cfg env w = pullNoRebaseDone cfg w := by
      unfold pull
      simp [hwd, hmg, hsf, hgd, hci, hpl, hv, hcp, hdb, hz]
    rw [hrun]
    refine ⟨rfl, rfl, fun _ => ?_, fun hne => absurd hbm hne⟩
    simp [pullNoRebaseDone, pullNoRebaseEvents, pullCommonEvents, World.withComment,
      List.filter_append]
  · have hz : w.st.modifiedSchema - w.st.baseSchema ≠ 0 := by
      intro hx
      exact hbm (by omega)
    have hrun : pull cfg env w = pullRebaseDone cfg w := by
      unfold pull
      simp [hwd, hmg, hsf, hgd, hci, hpl, hv, hcp, hdb, hz]
    rw [hrun]
    refine ⟨rfl, rfl, fun heq => absurd heq hbm, fun _ => ?_⟩
    simp [pullRebaseDone, pullRebaseEvents, pullCommonEvents, World.withComment,
      List.filter_append]

/-- Witness: C6 at the concrete world one version behind the server,
with a pending database edit (rebase branch). -/
theorem C6_pull_rebase_dispatch_witness :
    (pull cfg0 env0 wAhead).world.st.baseSchema
        = wAhead.st.baseSchema + pullTheirDelta wAhead
    ∧ (pull cfg0 env0 wAhead).world.st.modifiedSchema
        = wAhead.st.modifiedSchema + pullTheirDelta wAhead
    ∧ (wAhead.st.baseSchema = wAhead.st.modifiedSchema →
        (pull cfg0 env0 wAhead).events.filter Event.isSchemaChange
          = [Event.dbApply cfg0.base (pullTheirDelta wAhead),
             Event.dbApply cfg0.modified (pullTheirDelta wAhead)])
    ∧ (wAhead.st.baseSchema ≠ wAhead.st.modifiedSchema →
        (pull cfg0 env0 wAhead).events.filter Event.isSchemaChange
          = [Event.dbRebase cfg0.base cfg0.modified (pullTheirDelta wAhead)
               (pullConflictsPath cfg0),
             Event.dbApply cfg0.base (pullTheirDelta wAhead)]) :=
  C6_pull_rebase_dispatch cfg0 env0 wAhead rfl rfl rfl rfl rfl rfl
    (by decide) rfl rfl

/-! ## Claim C9 -/

/-- Events touching the file at path `p` (creation or removal). -/
def Event.concernsPath (p : String) : Event → Bool
  | .fileRemove q => q == p
  | .fileWrite q => q == p
  | _ => false

/-- A world one version behind the server with a leftover changeset file
at `pull`'s temp path from a previous run. -/
def wTmpPull : World :=
  ⟨{ st0 with tmpExists := [pullBase2ourPath cfg0] }, ⟨2, 9, true⟩⟩

/-- C9 counterexample: the claim says every operation removes an
existing file at its temp changeset path before reusing it, and removes
temporary artifacts after consumption.  But `pull` (line 249) writes its
`base→modified` changeset without any prior `os.remove`: on a world where
a file already exists at that path, the completed run contains the write
but no removal of that path, and the file is still present afterwards. -/
theorem C9_pull_changeset_not_removed_counterexample :
    pullBase2ourPath cfg0 ∈ wTmpPull.st.tmpExists
    ∧ Event.fileWrite (pullBase2ourPath cfg0) ∈ (pull cfg0 env0 wTmpPull).events
    ∧ Event.fileRemove (pullBase2ourPath cfg0) ∉ (pull cfg0 env0 wTmpPull).events
    ∧ (pull cfg0 env0 wTmpPull).error = none
    ∧ pullBase2ourPath cfg0 ∈ (pull cfg0 env0 wTmpPull).world.st.tmpExists := by
  refine ⟨?_, ?_, ?_, ?_, ?_⟩ <;> decide

/-- C9 (amended): `status` and `push` remove a pre-existing file at
their temp changeset path before creating the new changeset there, but
`pull` performs no such removal, and none of the three removes its
changeset file after consumption (each run ends with the file still in
place; `pull` removes only the old-basefile snapshot, and the
`as-summary`/`as-json` helpers their own JSON outputs). -/
theorem C9_tmp_changeset_cleanup (cfg : ConnConfig) (env : Env) (w wp : World)
    (hwd : w.st.workDirExists = true) (hmg : w.st.workDirHasMergin = true)
    (hsf : w.st.syncFileExists = true) (hgd : env.geodiffAvailable = true)
    (hci : env.clientErrorOnInfo = false) (hpl : env.pendingLocal = false)
    (hdb : env.dbConnectOk = true)
    (hbe : w.st.baseSchemaExists = true) (hme : w.st.modifiedSchemaExists = true)
    (hexS : statusBase2ourPath cfg ∈ w.st.tmpExists)
    (hveq : w.srv.version = w.st.localVersion)
    (hnd : pushDelta w ≠ 0) (hcp : env.clientErrorOnPush = false)
    (hexP : pushBase2ourPath cfg ∈ w.st.tmpExists)
    (hwd2 : wp.st.workDirExists = true) (hmg2 : wp.st.workDirHasMergin = true)
    (hsf2 : wp.st.syncFileExists = true)
    (hvne : wp.srv.version ≠ wp.st.localVersion) (hcl : env.clientErrorOnPull = false)
    (hexL : pullBase2ourPath cfg ∈ wp.st.tmpExists)
    (h1 : basefileOldPath cfg ≠ pullBase2ourPath cfg)
    (h2 : pullBase2theirPath cfg ≠ pullBase2ourPath cfg) :
    ((status cfg env w).events.filter (Event.concernsPath (statusBase2ourPath cfg))
        = [Event.fileRemove (statusBase2ourPath cfg),
           Event.fileWrite (statusBase2ourPath cfg)]
      ∧ statusBase2ourPath cfg ∈ (status cfg env w).world.st.tmpExists)
    ∧ ((push cfg env w).events.filter (Event.concernsPath (pushBase2ourPath cfg))
        = [Event.fileRemove (pushBase2ourPath cfg),
           Event.fileWrite (pushBase2ourPath cfg)]
      ∧ pushBase2ourPath cfg ∈ (push cfg env w).world.st.tmpExists)
    ∧ ((pull cfg env wp).events.filter (Event.concernsPath (pullBase2ourPath cfg))
        = [Event.fileWrite (pullBase2ourPath cfg)]
      ∧ pullBase2ourPath cfg ∈ (pull cfg env wp).world.st.tmpExists) := by
  have hb1 : (basefileOldPath cfg == pullBase2ourPath cfg) = false :=
    beq_eq_false_iff_ne.mpr h1
  have hb2 : (pullBase2theirPath cfg == pullBase2ourPath cfg) = false :=
    beq_eq_false_iff_ne.mpr h2
  refine ⟨?_, ?_, ?_⟩
  · have hrun : status cfg env w
        = ⟨statusWrittenWorld cfg w,
           [Event.serverContact "project_info",
            Event.fileRemove (statusBase2ourPath cfg),
            Event.fileWrite (statusBase2ourPath cfg)], none⟩ := by
      unfold status
      simp [hwd, hmg, hsf, hgd, hci, hpl, hdb, hbe, hme, hexS]
    rw [hrun]
    constructor
    · simp [Event.concernsPath]
    · simp [statusWrittenWorld]
  · have hrun : push cfg env w = pushDone cfg w := by
      unfold push
      simp [hwd, hmg, hsf, hgd, hci, hpl, hveq, hdb, hbe, hme, hnd, hcp]
    rw [hrun]
    constructor
    · simp [pushDone, pushInitialEvents, hexP, Event.concernsPath, List.filter_append]
    · simp [pushDone, pushFinalWorld]
  · by_cases hbm : wp.st.modifiedSchema - wp.st.baseSchema = 0
    · have hrun : pull cfg env wp = pullNoRebaseDone cfg wp := by
        unfold pull
        simp [hwd2, hmg2, hsf2, hgd, hci, hpl, hvne, hcl, hdb, hbm]
      rw [hrun]
      constructor
      · simp [pullNoRebaseDone, pullNoRebaseEvents, pullCommonEvents,
          Event.concernsPath, List.filter_append, hb1, hb2]
      · simp [pullNoRebaseDone, pullAppliedWorld, World.withComment]
    · have hrun : pull cfg env wp = pullRebaseDone cfg wp := by
        unfold pull
        simp [hwd2, hmg2, hsf2, hgd, hci, hpl, hvne, hcl, hdb, hbm]
      rw [hrun]
      constructor
      · simp [pullRebaseDone, pullRebaseEvents, pullCommonEvents,
          Event.concernsPath, List.filter_append, hb1, hb2]
      · simp [pullRebaseDone, pullAppliedWorld, World.withComment]

/-- A healthy in-sync world with leftover changeset files at both
`status`'s and `push`'s temp paths. -/
def wTmpBoth : World :=
  ⟨{ st0 with tmpExists := [statusBase2ourPath cfg0, pushBase2ourPath cfg0] },
   ⟨1, 5, true⟩⟩

/-- Witness: C9 (amended) at concrete worlds with leftover files. -/
theorem C9_tmp_changeset_cleanup_witness :
    ((status cfg0 env0 wTmpBoth).events.filter
          (Event.concernsPath (statusBase2ourPath cfg0))
        = [Event.fileRemove (statusBase2ourPath cfg0),
           Event.fileWrite (statusBase2ourPath cfg0)]
      ∧ statusBase2ourPath cfg0 ∈ (status cfg0 env0 wTmpBoth).world.st.tmpExists)
    ∧ ((push cfg0 env0 wTmpBoth).events.filter
          (Event.concernsPath (pushBase2ourPath cfg0))
        = [Event.fileRemove (pushBase2ourPath cfg0),
           Event.fileWrite (pushBase2ourPath cfg0)]
      ∧ pushBase2ourPath cfg0 ∈ (push cfg0 env0 wTmpBoth).world.st.tmpExists)
    ∧ ((pull cfg0 env0 wTmpPull).events.filter
          (Event.concernsPath (pullBase2ourPath cfg0))
        = [Event.fileWrite (pullBase2ourPath cfg0)]
      ∧ pullBase2ourPath cfg0 ∈ (pull cfg0 env0 wTmpPull).world.st.tmpExists) :=
  C9_tmp_changeset_cleanup cfg0 env0 wTmpBoth wTmpPull
    rfl rfl rfl rfl rfl rfl rfl rfl rfl
    (by decide) rfl (by decide) rfl (by decide)
    rfl rfl rfl (by decide) rfl (by decide)
    (by decide) (by decide)

end DbSync
